import Mathlib

/-!
Verification of the paint-mixing-plant GUI core (src/gui.py): threshold
alarm generation, the rotating alarm log, the polling worker rounds, the
valve-slider debouncer and the valve-echo display guard.  All numeric
values are modelled as rationals; Python `int()` truncation is modelled
explicitly.
-/

/-- The six tank names of a station (`ColorMixingStationWidget.tanks`). -/
inductive TankName
  | cyan
  | magenta
  | yellow
  | black
  | white
  | mixer
  deriving DecidableEq, Repr

/-- Display string of a tank name, as used in Tango paths and alarm texts. -/
def TankName.str : TankName → String
  | .cyan => "cyan"
  | .magenta => "magenta"
  | .yellow => "yellow"
  | .black => "black"
  | .white => "white"
  | .mixer => "mixer"

/-- Python `int()` applied to a rational: truncation toward zero. -/
def pyInt (q : ℚ) : ℤ :=
  if 0 ≤ q then ⌊q⌋ else -⌊-q⌋

/-- The percentage text `f'{int(level*10)/10:.0%}'` of
`check_alarm_generation`: `int(level*10)/10` formatted as a percentage
with no decimals.  Since `int(level*10)/10 * 100 = int(level*10) * 10`
is an integer, the format is exact. -/
def pctString (level : ℚ) : String :=
  toString (pyInt (level * 10) * 10) ++ "%"

/-- `ColorMixingStationOverviewWidget.check_alarm_generation`
(src/gui.py lines 307-313): given the previous and the new level of a
tank, returns the list of alarm texts passed to `wrt_alarm` (the code
makes at most one such call per evaluation). -/
def check_alarm_generation (station_name : String) (tank_name : TankName)
    (previous_level level : ℚ) : List String :=
  if tank_name = TankName.mixer then
    if (previous_level < mkRat 8 10 ∧ mkRat 8 10 ≤ level) ∨
       (previous_level < mkRat 9 10 ∧ mkRat 9 10 ≤ level) then
      [station_name ++ "/" ++ tank_name.str ++ " : " ++ pctString level ++ " full"]
    else []
  else
    if (previous_level > mkRat 2 10 ∧ level ≤ mkRat 2 10) ∨
       (previous_level > mkRat 1 10 ∧ level ≤ mkRat 1 10) then
      [station_name ++ "/" ++ tank_name.str ++ " : " ++ pctString level ++ " remaining"]
    else []

/-- `TankWidget.__init__` (src/gui.py line 29): the fill level of a
freshly constructed tank widget is the default argument `level=0`. -/
def TankWidget_init_fill_level : ℚ := 0

/-- `ColorMixingStationOverviewWidget.setLevel` (src/gui.py lines
295-305): evaluates the alarm check against the stored fill level, then
overwrites the stored fill level with the new sample.  Returns the new
stored level together with the alarms emitted. -/
def setLevel (station_name : String) (tank_name : TankName)
    (fill_level level : ℚ) : ℚ × List String :=
  (level, check_alarm_generation station_name tank_name fill_level level)

/-- The alarms produced by the very first sample after construction:
`setLevel` evaluated against the initial fill level 0. -/
def firstSampleAlarms (station_name : String) (tank_name : TankName)
    (level : ℚ) : List String :=
  (setLevel station_name tank_name TankWidget_init_fill_level level).2

/-- The role's ordered threshold list of the spec: ascending
[0.8, 0.9] for the mixer, descending [0.2, 0.1] for a supply tank. -/
def roleThresholds (tank_name : TankName) : List ℚ :=
  if tank_name = TankName.mixer then [mkRat 8 10, mkRat 9 10] else [mkRat 2 10, mkRat 1 10]

/-- The spec's per-threshold crossing condition: `last < t <= level`
for the ascending mixer role, `last > t >= level` for the descending
supply role. -/
def crossing (tank_name : TankName) (previous t level : ℚ) : Prop :=
  if tank_name = TankName.mixer then previous < t ∧ t ≤ level
  else previous > t ∧ t ≥ level

instance (tank_name : TankName) (previous t level : ℚ) :
    Decidable (crossing tank_name previous t level) :=
  if h : tank_name = TankName.mixer then
    decidable_of_iff (previous < t ∧ t ≤ level) (by rw [crossing, if_pos h])
  else
    decidable_of_iff (previous > t ∧ t ≥ level) (by rw [crossing, if_neg h])

/-- Spec-side percentage: the sampled level truncated down to the
nearest 10%, expressed as an integer percentage (0.85 ↦ 80). -/
def specPct (level : ℚ) : ℤ := 10 * ⌊10 * level⌋

/-- Spec-side expected alarm message: station/tank, the truncated
percentage, and the role's message form ("% full" for the mixer,
"% remaining" for a supply tank). -/
def specMessage (station_name : String) (tank_name : TankName) (level : ℚ) : String :=
  station_name ++ "/" ++ tank_name.str ++ " : " ++ toString (specPct level) ++
    (if tank_name = TankName.mixer then "% full" else "% remaining")

/-- `Gui.__init__` (src/gui.py line 437): the ten alarm labels, all
initially holding the empty text. -/
def alarm_labels_init : List String := List.replicate 10 ""

/-- `Gui.write_new_alarm` (src/gui.py lines 448-455): the loop copies
each label's text from its predecessor, from the last label down to
index 1, then writes the new text into index 0 — i.e. the new text is
inserted at the front and the last (oldest) text is dropped. -/
def write_new_alarm (labels : List String) (alarm_text : String) : List String :=
  alarm_text :: labels.dropLast

/-- A sequence of `write_new_alarm` calls, oldest first. -/
def write_alarms (labels : List String) (texts : List String) : List String :=
  texts.foldl write_new_alarm labels

/-- The four Tango attributes polled per tank. -/
inductive TangoAttr
  | level
  | flow
  | valve
  | color
  deriving DecidableEq, Repr

/-- The outcome of the four `AttributeProxy.read()` calls a polling
round would perform: `none` models a read that raises. -/
structure DevReads where
  color : Option String
  level : Option ℚ
  flow : Option ℚ
  valve : Option ℚ

/-- The snapshot a fully successful round emits to the UI. -/
structure Snapshot where
  color : String
  level : ℚ
  flow : ℚ
  valve : ℚ
  deriving DecidableEq

/-- One round of `TangoBackgroundWorker.run` (src/gui.py lines
569-585): reads `color`, `level`, `flow`, `valve` sequentially — the
first failing read raises and aborts the round, so nothing is emitted;
only if all four succeed are the four values emitted together.  Returns
the published snapshot (if any) and the trace of attempted reads in
order. -/
def pollRound (d : DevReads) : Option Snapshot × List TangoAttr :=
  match d.color with
  | none => (none, [TangoAttr.color])
  | some c =>
    match d.level with
    | none => (none, [TangoAttr.color, TangoAttr.level])
    | some l =>
      match d.flow with
      | none => (none, [TangoAttr.color, TangoAttr.level, TangoAttr.flow])
      | some f =>
        match d.valve with
        | none =>
          (none, [TangoAttr.color, TangoAttr.level, TangoAttr.flow, TangoAttr.valve])
        | some v =>
          (some ⟨c, l, f, v⟩,
           [TangoAttr.color, TangoAttr.level, TangoAttr.flow, TangoAttr.valve])

/-- The tank state published to the UI after one round: a failed round
leaves the previously published state untouched. -/
def applyRound (s : Option Snapshot) (d : DevReads) : Option Snapshot :=
  match (pollRound d).1 with
  | none => s
  | some snap => some snap

/-- The polling loop over a list of rounds: each round is processed in
turn (after a failed round the loop simply proceeds to the next). -/
def runRounds (s : Option Snapshot) (ds : List DevReads) : Option Snapshot :=
  ds.foldl applyRound s

/-- Events of the valve-slider debouncer of `PaintTankWidget`:
`request v` is a slider change to position `v` (0-100), handled by
`changedValue`; `fire` is the expiry of the 200 ms timer, handled by
`timerEvent`.  A burst of requests each arriving within less than the
settle delay of the previous one is a run of `request` events with no
`fire` between them. -/
inductive DebEvent
  | request : ℤ → DebEvent
  | fire

/-- Debouncer state: `timer_slider` (src/gui.py line 141, `None` when
no timer is pending) and the slider position. -/
structure DebState where
  timer_slider : Option Unit
  slider : ℤ

/-- One step of the debouncer (src/gui.py lines 160-179).
`changedValue` kills any pending timer and starts a fresh 200 ms one;
`timerEvent` kills the timer, clears `timer_slider` and issues the one
remote write `slider.value() / 100.0`.  The second component lists the
remote writes issued by the step. -/
def debStep (s : DebState) : DebEvent → DebState × List ℚ
  | DebEvent.request v => ({ timer_slider := some (), slider := v }, [])
  | DebEvent.fire => ({ timer_slider := none, slider := s.slider }, [(s.slider : ℚ) / 100])

/-- Runs the debouncer over a sequence of events, collecting the remote
writes in order. -/
def runDeb (s : DebState) : List DebEvent → DebState × List ℚ
  | [] => (s, [])
  | e :: es =>
    let step := debStep s e
    let rest := runDeb step.1 es
    (rest.1, step.2 ++ rest.2)

/-- The user-facing valve display of a tank: the slider position and
the `TankWidget.valve` percentage shown next to the valve symbol. -/
structure ValveDisplay where
  slider : ℤ
  tank_valve : ℚ
  deriving DecidableEq

/-- `PaintTankWidget.setValve` (src/gui.py lines 189-196): a polled
valve echo updates the slider and the tank label only when no debounce
timer is pending **and** the user is not holding the slider down;
otherwise the display is left unchanged. -/
def PaintTankWidget_setValve (timer_slider : Option Unit) (sliderDown : Bool)
    (d : ValveDisplay) (valve : ℚ) : ValveDisplay :=
  if timer_slider = none ∧ sliderDown = false then
    { slider := pyInt (valve * 100), tank_valve := valve * 100 }
  else d

theorem ite_singleton_ne_nil {α : Type} {c : Prop} [Decidable c] (x : α) :
    (if c then [x] else []) ≠ [] ↔ c := by
  split <;> simp [*]

theorem check_length_le_one (s : String) (tn : TankName) (p l : ℚ) :
    (check_alarm_generation s tn p l).length ≤ 1 := by
  rw [check_alarm_generation]
  split <;> split <;> simp

theorem check_fires_iff (s : String) (tn : TankName) (p l : ℚ) :
    check_alarm_generation s tn p l ≠ [] ↔
      ∃ t ∈ roleThresholds tn, crossing tn p t l := by
  by_cases h : tn = TankName.mixer
  · subst h
    rw [check_alarm_generation, if_pos rfl, ite_singleton_ne_nil]
    simp [roleThresholds, crossing]
  · rw [check_alarm_generation, if_neg h, ite_singleton_ne_nil]
    simp [roleThresholds, crossing, h]

/-- C1 (amended): the code produces at most one alarm record per evaluated
sample, and an alarm is produced iff the role's crossing condition holds
for at least one of the role's thresholds (previous < t ≤ level for the
mixer thresholds 0.8, 0.9; previous > t ≥ level for the supply thresholds
0.2, 0.1); no alarm is produced otherwise.  The original per-threshold
claim fails: a sample crossing both thresholds yields one record, not
two. -/
theorem C1_alarm_fires_iff_some_threshold_crossed (s : String) (tn : TankName) (p l : ℚ) :
    (check_alarm_generation s tn p l ≠ [] ↔
      ∃ t ∈ roleThresholds tn, crossing tn p t l) ∧
    (check_alarm_generation s tn p l).length ≤ 1 :=
  ⟨check_fires_iff s tn p l, check_length_le_one s tn p l⟩

/-- C1: counterexample — a mixer sample moving 0.75 → 0.95 satisfies the
crossing condition for both thresholds 0.8 and 0.9, yet the evaluation
produces a single alarm record, not one per crossed threshold. -/
theorem C1_counterexample_single_record_on_double_cross :
    crossing TankName.mixer (mkRat 3 4) (mkRat 8 10) (mkRat 19 20) ∧
    crossing TankName.mixer (mkRat 3 4) (mkRat 9 10) (mkRat 19 20) ∧
    (check_alarm_generation "station1" TankName.mixer (mkRat 3 4) (mkRat 19 20)).length = 1 := by
  refine ⟨by decide, by decide, ?_⟩
  rw [check_alarm_generation, if_pos rfl, if_pos (by decide)]
  rfl

/-- C2 (amended): a sample whose level jump crosses both of the role's
thresholds produces exactly one alarm record, not one per crossed
threshold — the two edges are merged into a single record. -/
theorem C2_double_cross_produces_one_record (s : String) (tn : TankName) (p l : ℚ)
    (h : ∀ t ∈ roleThresholds tn, crossing tn p t l) :
    (check_alarm_generation s tn p l).length = 1 := by
  have hne : check_alarm_generation s tn p l ≠ [] := by
    rw [check_fires_iff]
    by_cases htn : tn = TankName.mixer
    · exact ⟨mkRat 8 10, by simp [roleThresholds, htn], h _ (by simp [roleThresholds, htn])⟩
    · exact ⟨mkRat 2 10, by simp [roleThresholds, htn], h _ (by simp [roleThresholds, htn])⟩
  have hle := check_length_le_one s tn p l
  have hpos : 0 < (check_alarm_generation s tn p l).length := List.length_pos.mpr hne
  omega

/-- C2: witness — a mixer jump 0.75 → 0.95 crosses both thresholds and
yields exactly one record. -/
theorem C2_witness :
    (check_alarm_generation "station2" TankName.mixer (mkRat 3 4) (mkRat 19 20)).length = 1 :=
  C2_double_cross_produces_one_record "station2" TankName.mixer (mkRat 3 4) (mkRat 19 20)
    (by decide)

/-- C2: counterexample — a supply-tank sample moving 0.25 → 0.05 crosses
both thresholds 0.2 and 0.1, yet only one alarm record is produced, not
the two records the claim requires. -/
theorem C2_counterexample_supply_double_cross :
    crossing TankName.cyan (mkRat 1 4) (mkRat 2 10) (mkRat 1 20) ∧
    crossing TankName.cyan (mkRat 1 4) (mkRat 1 10) (mkRat 1 20) ∧
    (check_alarm_generation "station1" TankName.cyan (mkRat 1 4) (mkRat 1 20)).length = 1 := by
  refine ⟨by decide, by decide, ?_⟩
  rw [check_alarm_generation, if_neg (by decide), if_pos (by decide)]
  rfl

/-- C3 (amended): the per-tank last-observed level is initialised to 0
(not undefined), and the first sample is evaluated against it: a mixer
whose first sample is at or above 0.8 fires an alarm on that very sample,
while a supply tank's first sample never fires (0 is below both supply
thresholds). -/
theorem C3_first_sample_evaluated_against_zero (s : String) (l : ℚ)
    (tn : TankName) (h : tn ≠ TankName.mixer) :
    (firstSampleAlarms s TankName.mixer l ≠ [] ↔ mkRat 8 10 ≤ l) ∧
    firstSampleAlarms s tn l = [] := by
  constructor
  · rw [show firstSampleAlarms s TankName.mixer l
        = check_alarm_generation s TankName.mixer 0 l from rfl,
      check_alarm_generation, if_pos rfl, ite_singleton_ne_nil]
    constructor
    · rintro (⟨-, h8⟩ | ⟨-, h9⟩)
      · exact h8
      · exact le_trans (by decide) h9
    · intro h8
      exact Or.inl ⟨by decide, h8⟩
  · rw [show firstSampleAlarms s tn l = check_alarm_generation s tn 0 l from rfl,
      check_alarm_generation, if_neg h, if_neg ?_]
    rintro (⟨h2, -⟩ | ⟨h2, -⟩) <;> revert h2 <;> decide

/-- C3: witness — first supply sample 0.9 produces no alarm, and the
mixer's first-sample alarm condition at 0.9 is a genuine crossing. -/
theorem C3_witness :
    (firstSampleAlarms "station3" TankName.mixer (mkRat 9 10) ≠ [] ↔
      mkRat 8 10 ≤ mkRat 9 10) ∧
    firstSampleAlarms "station3" TankName.cyan (mkRat 9 10) = [] :=
  C3_first_sample_evaluated_against_zero "station3" (mkRat 9 10) TankName.cyan (by decide)

/-- C3: counterexample — a mixer whose very first sample after
construction is 0.85 (at or above 0.8) does fire an alarm on that sample,
because the stored fill level starts at 0 rather than undefined. -/
theorem C3_counterexample_mixer_first_sample_fires :
    (firstSampleAlarms "station1" TankName.mixer (mkRat 17 20)).length = 1 := by
  rw [show firstSampleAlarms "station1" TankName.mixer (mkRat 17 20)
      = check_alarm_generation "station1" TankName.mixer 0 (mkRat 17 20) from rfl,
    check_alarm_generation, if_pos rfl, if_pos (by decide)]
  rfl

/-- C4: the alarm log always keeps exactly ten label texts; a new alarm
is inserted at the front (index 0) with the remaining texts shifted down
and the oldest (last) text dropped; and after any sequence of 12 appends
exactly the 10 most recent records remain, newest at index 0. -/
theorem C4_alarm_log_capacity_and_order (labels : List String) (r : String)
    (hlen : labels.length = 10)
    (a b c d e f g h i j k l : String) :
    (write_new_alarm labels r).length = 10 ∧
    write_new_alarm labels r = r :: labels.dropLast ∧
    write_alarms alarm_labels_init [a, b, c, d, e, f, g, h, i, j, k, l]
      = [l, k, j, i, h, g, f, e, d, c] := by
  refine ⟨?_, rfl, rfl⟩
  rw [write_new_alarm]
  simp [hlen]

/-- C4: witness — instantiated at the initial (all-empty) log and twelve
concrete records. -/
theorem C4_witness :
    (write_new_alarm alarm_labels_init "r").length = 10 ∧
    write_new_alarm alarm_labels_init "r" = "r" :: alarm_labels_init.dropLast ∧
    write_alarms alarm_labels_init
        ["a1", "a2", "a3", "a4", "a5", "a6", "a7", "a8", "a9", "a10", "a11", "a12"]
      = ["a12", "a11", "a10", "a9", "a8", "a7", "a6", "a5", "a4", "a3"] :=
  C4_alarm_log_capacity_and_order alarm_labels_init "r" (by decide)
    "a1" "a2" "a3" "a4" "a5" "a6" "a7" "a8" "a9" "a10" "a11" "a12"

/-- C5: a polling round in which any of the four reads fails publishes
nothing (the published tank state is unchanged by the round), the loop
simply proceeds to the remaining rounds, and a following fully successful
round publishes all four freshly read values. -/
theorem C5_failed_round_publishes_nothing (d : DevReads) (s : Option Snapshot)
    (ds : List DevReads)
    (hfail : d.color = none ∨ d.level = none ∨ d.flow = none ∨ d.valve = none) :
    (pollRound d).1 = none ∧ applyRound s d = s ∧
    runRounds s (d :: ds) = runRounds s ds ∧
    ∀ c l f v, runRounds s (d :: DevReads.mk (some c) (some l) (some f) (some v) :: ds)
      = runRounds (some ⟨c, l, f, v⟩) ds := by
  have h1 : (pollRound d).1 = none := by
    obtain ⟨oc, ol, og, ov⟩ := d
    cases oc <;> cases ol <;> cases og <;> cases ov <;> simp_all [pollRound]
  have h2 : applyRound s d = s := by
    rw [applyRound, h1]
  refine ⟨h1, h2, ?_, ?_⟩
  · rw [runRounds, List.foldl_cons, h2]
    rfl
  · intro c l f v
    rw [runRounds, List.foldl_cons, h2, List.foldl_cons]
    rfl

/-- C5: witness — a round whose level read fails, followed by a fully
successful round. -/
theorem C5_witness :
    (pollRound ⟨some "#ffffff", none, some 0, some 0⟩).1 = none ∧
    applyRound none ⟨some "#ffffff", none, some 0, some 0⟩ = none ∧
    runRounds none (⟨some "#ffffff", none, some 0, some 0⟩ :: []) = runRounds none [] ∧
    ∀ c l f v, runRounds none
        (⟨some "#ffffff", none, some 0, some 0⟩ :: DevReads.mk (some c) (some l) (some f) (some v) :: [])
      = runRounds (some ⟨c, l, f, v⟩) [] :=
  C5_failed_round_publishes_nothing ⟨some "#ffffff", none, some 0, some 0⟩ none []
    (Or.inr (Or.inl rfl))

/-- C9 (amended): the four attribute reads of a polling round are issued
sequentially in the order color, level, flow, valve (a failing read aborts
the round early); in particular every fully successful round performs
exactly these four reads in this order. -/
theorem C9_reads_in_color_level_flow_valve_order (d : DevReads) (snap : Snapshot)
    (h : (pollRound d).1 = some snap) :
    (pollRound d).2 = [TangoAttr.color, TangoAttr.level, TangoAttr.flow, TangoAttr.valve] := by
  obtain ⟨oc, ol, og, ov⟩ := d
  cases oc <;> cases ol <;> cases og <;> cases ov <;> simp_all [pollRound]

/-- C9: witness — a fully successful round at concrete read values. -/
theorem C9_witness :
    (pollRound ⟨some "#000000", some 0, some 0, some 0⟩).2
      = [TangoAttr.color, TangoAttr.level, TangoAttr.flow, TangoAttr.valve] :=
  C9_reads_in_color_level_flow_valve_order ⟨some "#000000", some 0, some 0, some 0⟩
    ⟨"#000000", 0, 0, 0⟩ rfl

/-- C9: counterexample — the attempted-read trace of a fully successful
round is color, level, flow, valve, which differs from the claimed order
level, flow, valve, color. -/
theorem C9_counterexample_order_is_color_first :
    (pollRound ⟨some "#000000", some 1, some 0, some 0⟩).2
      = [TangoAttr.color, TangoAttr.level, TangoAttr.flow, TangoAttr.valve] ∧
    [TangoAttr.color, TangoAttr.level, TangoAttr.flow, TangoAttr.valve]
      ≠ [TangoAttr.level, TangoAttr.flow, TangoAttr.valve, TangoAttr.color] :=
  ⟨rfl, by decide⟩

/-- C6: a burst of N ≥ 1 valve-ratio requests, each arriving while the
previous request's 200 ms timer is still pending (so no `fire` between
them), followed by the single timer expiry, issues exactly one remote
write, and it carries the value of the last request of the burst
(slider position / 100). -/
theorem C6_debounce_last_write_wins (s : DebState) (vs : List ℤ) (h : vs ≠ []) :
    (runDeb s (vs.map DebEvent.request ++ [DebEvent.fire])).2
      = [((vs.getLast h : ℤ) : ℚ) / 100] := by
  induction vs generalizing s with
  | nil => exact absurd rfl h
  | cons v vs ih =>
    cases vs with
    | nil => rfl
    | cons w ws =>
      rw [List.map_cons, List.cons_append, runDeb]
      have := ih ⟨some (), v⟩ (by simp)
      simp only [debStep] at this ⊢
      rw [this]
      rfl

/-- C6: witness — the burst 10, 30, 55 (slider positions) followed by the
timer expiry yields the single remote write 55/100 = 0.55. -/
theorem C6_witness :
    (runDeb ⟨none, 0⟩ ([10, 30, 55].map DebEvent.request ++ [DebEvent.fire])).2
      = [((55 : ℤ) : ℚ) / 100] :=
  C6_debounce_last_write_wins ⟨none, 0⟩ [10, 30, 55] (by decide)

/-- For a nonnegative level, the code's percentage text equals the spec's
level-truncated-down-to-the-nearest-10% percentage. -/
theorem pctString_eq_specPct (l : ℚ) (hl : 0 ≤ l) :
    pctString l = toString (specPct l) ++ "%" := by
  rw [pctString, specPct, pyInt, if_pos (mul_nonneg hl (by norm_num)), mul_comm l 10,
    Int.mul_comm]

/-- C7: every alarm message the code produces for a (nonnegative) sampled
level is exactly the spec message: station/tank, the level truncated down
to the nearest 10% as a percentage, and the role's form — "% full" for
the mixer, "% remaining" for a supply tank (0.85 yields "80% full"). -/
theorem C7_message_reports_truncated_level (s : String) (tn : TankName) (p l : ℚ)
    (hl : 0 ≤ l) (msg : String) (hmsg : msg ∈ check_alarm_generation s tn p l) :
    msg = specMessage s tn l := by
  rw [check_alarm_generation] at hmsg
  by_cases htn : tn = TankName.mixer
  · rw [if_pos htn] at hmsg
    split at hmsg
    · rw [List.mem_singleton] at hmsg
      subst hmsg
      rw [specMessage, if_pos htn, pctString_eq_specPct l hl]
      simp only [String.append_assoc]
      rfl
    · simp at hmsg
  · rw [if_neg htn] at hmsg
    split at hmsg
    · rw [List.mem_singleton] at hmsg
      subst hmsg
      rw [specMessage, if_neg htn, pctString_eq_specPct l hl]
      simp only [String.append_assoc]
      rfl
    · simp at hmsg

/-- C7: witness — the alarm record a mixer fires at level 0.85 carries
the spec message for station1/mixer at 0.85 (i.e. "80% full"). -/
theorem C7_witness :
    "station1" ++ "/" ++ TankName.mixer.str ++ " : " ++ pctString (mkRat 17 20) ++ " full"
      = specMessage "station1" TankName.mixer (mkRat 17 20) :=
  C7_message_reports_truncated_level "station1" TankName.mixer (mkRat 3 4) (mkRat 17 20)
    (by decide) _
    (by rw [check_alarm_generation, if_pos rfl, if_pos (by decide)]
        exact List.mem_singleton.mpr rfl)

/-- C8 (amended): while a debounce timer is pending a polled valve echo
never overwrites the user-facing slider/valve display; once no timer is
pending the echo is applied only if additionally the user is not holding
the slider down. -/
theorem C8_echo_blocked_while_timer_pending (u : Unit) (sliderDown : Bool)
    (d : ValveDisplay) (valve : ℚ) :
    PaintTankWidget_setValve (some u) sliderDown d valve = d ∧
    PaintTankWidget_setValve none false d valve
      = ⟨pyInt (valve * 100), valve * 100⟩ := by
  constructor <;> simp [PaintTankWidget_setValve]

/-- C8: counterexample — with no timer pending but the slider held down,
the polled echo 0.5 is *not* applied to the (all-zero) display, although
the same echo with the slider released would change it. -/
theorem C8_counterexample_held_slider_blocks_echo :
    PaintTankWidget_setValve none true ⟨0, 0⟩ (mkRat 1 2) = ⟨0, 0⟩ ∧
    PaintTankWidget_setValve none false ⟨0, 0⟩ (mkRat 1 2) ≠ ⟨0, 0⟩ := by
  constructor
  · simp [PaintTankWidget_setValve]
  · rw [PaintTankWidget_setValve, if_pos ⟨rfl, rfl⟩]
    intro hEq
    have h := congrArg ValveDisplay.tank_valve hEq
    simp only at h
    norm_num [Rat.mkRat_eq_divInt, Rat.divInt_eq_div] at h

/-- C10: a polled valve echo is applied to the slider/valve display only
when no debounce timer is pending and the slider is not held down: a held
slider blocks the update even with no timer pending; if either condition
fails the display is unchanged; with no timer pending and the slider
released the echo is applied. -/
theorem C10_echo_applied_only_when_idle (timer : Option Unit) (d : ValveDisplay)
    (valve : ℚ) :
    PaintTankWidget_setValve timer true d valve = d ∧
    PaintTankWidget_setValve none false d valve
      = ⟨pyInt (valve * 100), valve * 100⟩ ∧
    ∀ (t : Option Unit) (down : Bool), t ≠ none ∨ down ≠ false →
      PaintTankWidget_setValve t down d valve = d := by
  refine ⟨by simp [PaintTankWidget_setValve], by simp [PaintTankWidget_setValve], ?_⟩
  intro t down h
  rw [PaintTankWidget_setValve, if_neg]
  rintro ⟨h1, h2⟩
  rcases h with h | h
  · exact h h1
  · exact h h2

/-- C10: witness — with no timer pending but the slider held down, the
echo 0.5 leaves the all-zero display unchanged. -/
theorem C10_witness :
    PaintTankWidget_setValve none true ⟨0, 0⟩ (mkRat 1 2) = (⟨0, 0⟩ : ValveDisplay) :=
  (C10_echo_applied_only_when_idle none ⟨0, 0⟩ (mkRat 1 2)).2.2 none true
    (Or.inr (by decide))
